import Mathlib

/-!
Shallow embedding of the ABP pressure-sensor driver (src/src/lib.rs).

Modelling conventions:
* `u8`/`u16` values are `ℕ` with explicit bounds (`< 256`, `< 65536`) where
  they matter; the one wrapping subtraction (`o_max - o_min : u16`) is
  `u16_sub` with an explicit `% 65536`.
* `f32` arithmetic is modelled as exact `ℚ` arithmetic.
* Rust `panic!` is modelled as the `error`/`none` branch of `Except`/`Option`.
* part-number strings are `List Char`; the `substring` crate's
  `substring(start_index, end_index)` is 0-based and end-exclusive, which the
  embedding reproduces exactly.
-/

/-- The four sensor status values (`enum Status`, lib.rs:61-67). -/
inductive Status where
  | Valid
  | Command
  | Stale
  | Diagnostic
deriving DecidableEq

/-- `impl From<u8> for Status` (lib.rs:69-82). The `_ => panic!("illegal staus")`
branch is modelled as `none`. -/
def statusFromU8 (s : ℕ) : Option Status :=
  match s with
  | 0 => some Status.Valid
  | 1 => some Status.Command
  | 2 => some Status.Stale
  | 3 => some Status.Diagnostic
  | _ => none

/-- `struct Output` (lib.rs:93-99): decoded status, raw pressure, raw temperature. -/
structure Output where
  status : Status
  pressure : ℕ
  temperature : ℕ
deriving DecidableEq

/-- The configuration fields of `struct Abp` (lib.rs:103-120), without the bus
and delay handles (those are external capabilities; the driver operations are
modelled as functions of the configuration and of the bytes a successful bus
read produced). -/
structure Configuration where
  p_max : ℚ
  p_min : ℚ
  o_max : ℕ
  o_min : ℕ
  conversion_factor : ℚ
  i2c_address : ℕ
  has_thermometer : Bool
  has_sleep : Bool
deriving DecidableEq

/-- Wrapping `u16` subtraction, for `self.o_max - self.o_min` in
`convert_pressure` (lib.rs:241): `a` and `b` are `u16` values (`< 65536`). -/
def u16_sub (a b : ℕ) : ℕ :=
  (a + 65536 - b) % 65536

/-- `decode_pressure` (lib.rs:250-261): from byte 0 the bitmatch `"sspppppp"`
takes the top 2 bits as the status and the low 6 bits as the pressure high
bits; byte 1 is the pressure low byte. Returns `(status, pressure)` as
`bitpack!("000000ss")` and `bitpack!("00ppppppqqqqqqqq")`. -/
def decode_pressure (b0 b1 : ℕ) : ℕ × ℕ :=
  (b0 >>> 6, ((b0 &&& 0x3F) <<< 8) ||| b1)

/-- `decode_pressure_and_temperature` (lib.rs:263-282): bytes 0-1 as in
`decode_pressure`; byte 2 (`"tttttttt"`) gives the temperature high 8 bits and
the top 3 bits of byte 3 (`"vvv?????"`) its low 3 bits,
`bitpack!("00000ttttttttvvv")`. The `s.into()` conversion goes through
`statusFromU8`; its panic branch is the `none` of the `Option.map`. -/
def decode_pressure_and_temperature (b0 b1 b2 b3 : ℕ) : Option Output :=
  let pressure := ((b0 &&& 0x3F) <<< 8) ||| b1
  let s := b0 >>> 6
  let temperature := (b2 <<< 3) ||| (b3 >>> 5)
  (statusFromU8 s).map fun status => ⟨status, pressure, temperature⟩

/-- Outcome of `Abp::read` after a successful 2-byte bus read
(lib.rs:212-226): `Ok(value)`, `Err(WouldBlock)`, or the two hard errors of
`ApbError`. Bus errors are propagated before this point and are outside the
modelled decode path. -/
inductive ReadResult where
  | ok (value : ℚ)
  | wouldBlock
  | errorCommandMode
  | errorDiagnosticState
deriving DecidableEq

namespace Abp

/-- `Abp::convert_pressure` (lib.rs:239-242):
`(f32::from(self.o_max - self.o_min)/(self.p_max - self.p_min))*(reading - self.p_min) + f32::from(self.o_min)`,
with the `u16` subtraction made explicit. -/
def convert_pressure (cfg : Configuration) (reading : ℚ) : ℚ :=
  ((u16_sub cfg.o_max cfg.o_min : ℚ) / (cfg.p_max - cfg.p_min)) * (reading - cfg.p_min)
    + (cfg.o_min : ℚ)

/-- `Abp::convert_temperature` (lib.rs:244-247):
`((temperature_reading/2047.0) * 200.0) - 50.0`. It does not read `self`. -/
def convert_temperature (temperature_reading : ℚ) : ℚ :=
  temperature_reading / 2047 * 200 - 50

/-- `Abp::read` (lib.rs:212-226) after a successful 2-byte bus read of
`[b0, b1]`. The source ends with
`match status { Valid => Ok(..), Command => .., Stale => .., Diagnostic => .. }`,
but the `Status` variants are never imported into scope, so each of those
patterns is an irrefutable identifier (binding) pattern: the first arm matches
every status value and the remaining arms are unreachable. The embedding
therefore returns `Ok(convert_pressure(pressure))` unconditionally, exactly as
the source does. -/
def read (cfg : Configuration) (b0 b1 : ℕ) : ReadResult :=
  let status_pressure := decode_pressure b0 b1
  ReadResult.ok (convert_pressure cfg (status_pressure.2 : ℚ))

/-- `Abp::pressure_and_temperature` (lib.rs:228-237) after a successful 4-byte
bus read: decodes the frame and returns `Ok(convert_pressure(output.pressure))`.
The `has_thermometer` guard in the source is commented out (lib.rs:230), so no
check of the flag happens; `none` is the unreachable status-conversion panic. -/
def pressure_and_temperature (cfg : Configuration) (b0 b1 b2 b3 : ℕ) : Option ℚ :=
  (decode_pressure_and_temperature b0 b1 b2 b3).map fun output =>
    convert_pressure cfg (output.pressure : ℚ)

end Abp

/-- Parse-failure cases of `Abp::new`; each constructor stands for one of the
`panic!` branches (lib.rs:139-199), in source order. -/
inductive ParseError where
  | InvalidSeries
  | InvalidRange
  | UnknownUnit
  | InvalidRangeType
  | UnsupportedInterface
  | UnknownOutputType
  | InvalidTransferFunction
deriving DecidableEq

/-- The `substring` crate's `str::substring(start_index, end_index)` as used by
`Abp::new`: 0-based, end-exclusive, empty when `end_index <= start_index`, and
clipped to the string's length. -/
def substring (s : List Char) (start_index end_index : ℕ) : List Char :=
  if end_index ≤ start_index then []
  else (s.drop start_index).take (end_index - start_index)

/-- `f32::from_str(..).unwrap()` on the pressure-range field (lib.rs:146),
modelled for the unsigned decimal-digit strings the catalog format uses
(`none` is the `unwrap` panic on anything else). -/
def parse_f32 (s : List Char) : Option ℚ :=
  if s.isEmpty then none
  else if s.all Char.isDigit then
    some ((s.foldl (fun a c => 10 * a + (c.toNat - 48)) 0 : ℕ) : ℚ)
  else none

/-- The pressure-unit match of `Abp::new` (lib.rs:149-156). -/
def conversion_factor_of (s : List Char) : Except ParseError ℚ :=
  if s = ['M'] then Except.ok 100
  else if s = ['B'] then Except.ok 100000
  else if s = ['K'] then Except.ok 1000
  else if s = ['P'] then Except.ok ((6894757293 : ℚ) / 1000000)
  else Except.error ParseError.UnknownUnit

/-- The differential/gauge match of `Abp::new` (lib.rs:158-163). -/
def p_min_of (p_max : ℚ) (s : List Char) : Except ParseError ℚ :=
  if s = ['D'] then Except.ok (-p_max)
  else if s = ['G'] then Except.ok 0
  else Except.error ParseError.InvalidRangeType

/-- The output-type match of `Abp::new` (lib.rs:165-178): `"A"`/`"S"` are the
SPI/analog variants the driver rejects, digits `"0"`-`"7"` select the I2C
address. -/
def i2c_address_of (s : List Char) : Except ParseError ℕ :=
  if s = ['A'] then Except.error ParseError.UnsupportedInterface
  else if s = ['S'] then Except.error ParseError.UnsupportedInterface
  else if s = ['0'] then Except.ok 0x08
  else if s = ['1'] then Except.ok 0x18
  else if s = ['2'] then Except.ok 0x28
  else if s = ['3'] then Except.ok 0x38
  else if s = ['4'] then Except.ok 0x48
  else if s = ['5'] then Except.ok 0x58
  else if s = ['6'] then Except.ok 0x68
  else if s = ['7'] then Except.ok 0x78
  else Except.error ParseError.UnknownOutputType

/-- The first transfer-function match of `Abp::new` (lib.rs:183-190). -/
def has_sleep_of (s : List Char) : Except ParseError Bool :=
  if s = ['A'] then Except.ok false
  else if s = ['D'] then Except.ok true
  else if s = ['S'] then Except.ok true
  else if s = ['T'] then Except.ok false
  else Except.error ParseError.InvalidTransferFunction

/-- The second transfer-function match of `Abp::new` (lib.rs:192-199). -/
def has_thermometer_of (s : List Char) : Except ParseError Bool :=
  if s = ['A'] then Except.ok false
  else if s = ['D'] then Except.ok true
  else if s = ['S'] then Except.ok false
  else if s = ['T'] then Except.ok true
  else Except.error ParseError.InvalidTransferFunction

/-- `Abp::new` (lib.rs:130-203) without the bus/delay handles: the part-number
parse producing the `Configuration`. Each `panic!` is an `Except.error`. The
`substring` offsets are exactly the source's arguments; note the comment block
in the source (lib.rs:132-135) documents 1-based inclusive positions 1..15
while `substring` is 0-based end-exclusive. -/
def Abp.new (part_nr : List Char) : Except ParseError Configuration :=
  if substring part_nr 1 3 ≠ ['A', 'B', 'P'] then Except.error ParseError.InvalidSeries
  else
    match parse_f32 (substring part_nr 8 10) with
    | none => Except.error ParseError.InvalidRange
    | some p_max => do
      let conversion_factor ← conversion_factor_of (substring part_nr 11 11)
      let p_min ← p_min_of p_max (substring part_nr 12 12)
      let i2c_address ← i2c_address_of (substring part_nr 13 13)
      let o_max := 0x3999
      let o_min := 0x0666
      let has_sleep ← has_sleep_of (substring part_nr 14 14)
      let has_thermometer ← has_thermometer_of (substring part_nr 14 14)
      Except.ok
        { p_max, p_min, o_max, o_min, conversion_factor, i2c_address,
          has_thermometer, has_sleep }

/-- The configuration the spec's part-number round trip (`"ABPDRRT150PG2A3"`)
describes: gauge 0..150 psi, I2C address 0x28, no sleep, no thermometer. Used
as a concrete driver configuration in the read-path theorems. -/
def cfgPsiGauge : Configuration :=
  { p_max := 150
    p_min := 0
    o_max := 0x3999
    o_min := 0x0666
    conversion_factor := (6894757293 : ℚ) / 1000000
    i2c_address := 0x28
    has_thermometer := false
    has_sleep := false }

/-! ## Helper lemmas -/

/-- Shifting left by `k` and or-ing in a value below `2 ^ k` is multiplication
plus addition: the two bitfields do not overlap. -/
theorem shiftLeft_lor_eq_mul_add (x y k : ℕ) (hy : y < 2 ^ k) :
    (x <<< k) ||| y = x * 2 ^ k + y := by
  apply Nat.eq_of_testBit_eq
  intro j
  rw [Nat.testBit_or, Nat.testBit_shiftLeft]
  rw [show x * 2 ^ k = 2 ^ k * x by ring]
  rw [Nat.testBit_mul_pow_two_add x hy j]
  by_cases h : j < k
  · simp [h, Nat.not_le.mpr h]
  · have hk : k ≤ j := Nat.le_of_not_lt h
    have hyj : y < 2 ^ j := lt_of_lt_of_le hy (Nat.pow_le_pow_right (by norm_num) hk)
    simp [h, hk, Nat.testBit_lt_two_pow hyj]

/-- Masking with `0x3F` is reduction modulo 64. -/
theorem and_63_eq_mod (n : ℕ) : n &&& 63 = n % 64 := by
  have h := Nat.and_pow_two_sub_one_eq_mod n 6
  norm_num at h
  exact h

/-- Every status value below 4 converts without hitting the panic branch. -/
theorem statusFromU8_isSome_of_lt (s : ℕ) (h : s < 4) :
    ∃ st, statusFromU8 s = some st := by
  interval_cases s <;> exact ⟨_, rfl⟩

/-! ## Claim theorems -/

/-- C1: the claim says `read` gates its outcome on the decoded 2-bit status
(0 delivers the converted value, 1 the command-mode error, 2 `WouldBlock`,
3 the diagnostic error). The code does not: the match's identifier patterns
bind instead of testing, so the first arm wins for every status. Concretely,
frames with status 1 (Command), 2 (Stale) and 3 (Diagnostic) all return
`Ok(convert_pressure(pressure))` — here pressure 0 converts to 1638. -/
theorem read_ignores_status_gating :
    (decode_pressure 0x40 0x00).1 = 1 ∧
    (decode_pressure 0x80 0x00).1 = 2 ∧
    (decode_pressure 0xC0 0x00).1 = 3 ∧
    Abp.read cfgPsiGauge 0x40 0x00 = ReadResult.ok 1638 ∧
    Abp.read cfgPsiGauge 0x80 0x00 = ReadResult.ok 1638 ∧
    Abp.read cfgPsiGauge 0xC0 0x00 = ReadResult.ok 1638 ∧
    Abp.read cfgPsiGauge 0x80 0x00 ≠ ReadResult.wouldBlock := by
  have h1 : decode_pressure 0x40 0x00 = (1, 0) := by decide
  have h2 : decode_pressure 0x80 0x00 = (2, 0) := by decide
  have h3 : decode_pressure 0xC0 0x00 = (3, 0) := by decide
  have hv : Abp.convert_pressure cfgPsiGauge 0 = 1638 := by
    norm_num [Abp.convert_pressure, cfgPsiGauge, u16_sub]
  refine ⟨by decide, by decide, by decide, ?_, ?_, ?_, ?_⟩ <;>
    simp [Abp.read, h1, h2, h3, hv]

/-- C2: the claim says parsing `"ABPDRRT150PG2A3"` succeeds with the psi/gauge
configuration. The code panics at the series check instead: the `substring`
crate is 0-based and end-exclusive, so `substring(1, 3)` of that part number is
`"BP"`, which is compared with `"ABP"`. -/
theorem new_rejects_round_trip_part_number :
    Abp.new (("ABPDRRT150PG2A3").toList) = Except.error ParseError.InvalidSeries := by
  rfl

/-- C3: the claim says a part number with output-type letter 'A' or 'S' at
spec offset 13 fails with the unsupported-interface error. In the code that
error is unreachable for every input: `substring(13, 13)` is always the empty
string (end-exclusive), and parsing aborts even earlier — at the series check
(`substring(1, 3)` is two characters) or, past it, at the pressure-unit match
on the empty `substring(11, 11)`. -/
theorem new_never_reports_unsupported_interface :
    Abp.new (("ABPDRRT150PGAA3").toList) = Except.error ParseError.InvalidSeries ∧
    ∀ part_nr : List Char,
      Abp.new part_nr ≠ Except.error ParseError.UnsupportedInterface := by
  refine ⟨by rfl, ?_⟩
  intro part_nr
  unfold Abp.new
  by_cases hser : substring part_nr 1 3 ≠ ['A', 'B', 'P']
  · simp [hser]
  · simp only [hser, if_false, ite_not]
    cases hp : parse_f32 (substring part_nr 8 10) with
    | none => simp
    | some p_max =>
      have h11 : substring part_nr 11 11 = [] := by simp [substring]
      simp [h11, conversion_factor_of, Bind.bind, Except.bind]

/-- C4: `decode_pressure` returns the top 2 bits of byte 0 as the status and
`(byte0 & 0x3F) << 8 | byte1` as the pressure; for bytes `0x15, 0xAA` it
returns status 0 and pressure `0x15AA = 5546`. -/
theorem decode_pressure_spec (b0 b1 : ℕ) (hb0 : b0 < 256) (hb1 : b1 < 256) :
    (decode_pressure b0 b1).1 = b0 / 64 ∧
    (decode_pressure b0 b1).2 = ((b0 &&& 0x3F) <<< 8) ||| b1 ∧
    (decode_pressure b0 b1).2 = b0 % 64 * 256 + b1 ∧
    decode_pressure 0x15 0xAA = (0, 5546) := by
  refine ⟨?_, rfl, ?_, by decide⟩
  · show b0 >>> 6 = b0 / 64
    rw [Nat.shiftRight_eq_div_pow]
  · show ((b0 &&& 0x3F) <<< 8) ||| b1 = b0 % 64 * 256 + b1
    rw [shiftLeft_lor_eq_mul_add _ _ 8 (by omega : b1 < 2 ^ 8)]
    rw [show ((0x3F : ℕ) = 63) from rfl, and_63_eq_mod]
    norm_num

/-- C4 witness: the specification instantiated at the frame `[0x15, 0xAA]`. -/
theorem decode_pressure_spec_witness :
    (decode_pressure 21 170).1 = 21 / 64 ∧
    (decode_pressure 21 170).2 = ((21 &&& 0x3F) <<< 8) ||| 170 ∧
    (decode_pressure 21 170).2 = 21 % 64 * 256 + 170 ∧
    decode_pressure 0x15 0xAA = (0, 5546) :=
  decode_pressure_spec 21 170 (by decide) (by decide)

/-- C5: `decode_pressure_and_temperature` always decodes (the frame is a
4-byte frame, every byte below 256), the decoded temperature is
`byte2 << 3 | (byte3 >> 5)`, equivalently `byte2 * 8 + byte3 / 32`, and two
frames that agree outside the bottom 5 bits of byte 3 decode identically. -/
theorem decode_temperature_spec (b0 b1 b2 b3 b3' : ℕ)
    (hb0 : b0 < 256) (hb2 : b2 < 256) (hb3 : b3 < 256)
    (h5 : b3 >>> 5 = b3' >>> 5) :
    (∃ out, decode_pressure_and_temperature b0 b1 b2 b3 = some out ∧
      out.temperature = (b2 <<< 3) ||| (b3 >>> 5) ∧
      out.temperature = b2 * 8 + b3 / 32) ∧
    decode_pressure_and_temperature b0 b1 b2 b3 =
      decode_pressure_and_temperature b0 b1 b2 b3' := by
  constructor
  · have hs : b0 >>> 6 < 4 := by
      rw [Nat.shiftRight_eq_div_pow]
      omega
    obtain ⟨st, hst⟩ := statusFromU8_isSome_of_lt (b0 >>> 6) hs
    refine ⟨⟨st, ((b0 &&& 0x3F) <<< 8) ||| b1, (b2 <<< 3) ||| (b3 >>> 5)⟩, ?_, rfl, ?_⟩
    · simp [decode_pressure_and_temperature, hst]
    · show (b2 <<< 3) ||| (b3 >>> 5) = b2 * 8 + b3 / 32
      have hv : b3 >>> 5 < 2 ^ 3 := by
        rw [Nat.shiftRight_eq_div_pow]
        omega
      rw [shiftLeft_lor_eq_mul_add _ _ 3 hv, Nat.shiftRight_eq_div_pow]
      norm_num
  · simp [decode_pressure_and_temperature, h5]

/-- C5 witness: frames `[0x15, 0xAA, 0xAB, 0xFF]` and `[0x15, 0xAA, 0xAB, 0xE0]`
differ only in the bottom 5 bits of byte 3. -/
theorem decode_temperature_spec_witness :
    (∃ out, decode_pressure_and_temperature 21 170 171 255 = some out ∧
      out.temperature = (171 <<< 3) ||| (255 >>> 5) ∧
      out.temperature = 171 * 8 + 255 / 32) ∧
    decode_pressure_and_temperature 21 170 171 255 =
      decode_pressure_and_temperature 21 170 171 224 :=
  decode_temperature_spec 21 170 171 255 224 (by decide) (by decide) (by decide) (by decide)

/-- C6: `convert_pressure` computes the linear transfer function
`(o_max - o_min) / (p_max - p_min) * (raw - p_min) + o_min` over the
configuration's calibrated span, and `conversion_factor` plays no part in the
result: changing it alone changes nothing. The hypotheses state the
configuration invariant `o_min ≤ o_max < 2^16` under which the `u16`
subtraction does not wrap. -/
theorem convert_pressure_spec (cfg : Configuration) (reading f : ℚ)
    (h1 : cfg.o_min ≤ cfg.o_max) (h2 : cfg.o_max < 65536) :
    Abp.convert_pressure cfg reading =
      ((cfg.o_max : ℚ) - (cfg.o_min : ℚ)) / (cfg.p_max - cfg.p_min)
        * (reading - cfg.p_min) + (cfg.o_min : ℚ) ∧
    Abp.convert_pressure { cfg with conversion_factor := f } reading =
      Abp.convert_pressure cfg reading := by
  constructor
  · unfold Abp.convert_pressure
    have hu : u16_sub cfg.o_max cfg.o_min = cfg.o_max - cfg.o_min := by
      unfold u16_sub
      omega
    rw [hu, Nat.cast_sub h1]
  · rfl

/-- C6 witness: the psi/gauge configuration, reading 0, `conversion_factor`
replaced by 1. -/
theorem convert_pressure_spec_witness :
    Abp.convert_pressure cfgPsiGauge 0 =
      ((cfgPsiGauge.o_max : ℚ) - (cfgPsiGauge.o_min : ℚ))
        / (cfgPsiGauge.p_max - cfgPsiGauge.p_min)
        * (0 - cfgPsiGauge.p_min) + (cfgPsiGauge.o_min : ℚ) ∧
    Abp.convert_pressure { cfgPsiGauge with conversion_factor := 1 } 0 =
      Abp.convert_pressure cfgPsiGauge 0 :=
  convert_pressure_spec cfgPsiGauge 0 1 (by decide) (by decide)

/-- C7: `convert_temperature` is `raw / 2047 * 200 - 50` for every raw value;
it maps 0 to −50, 2047 to 150, and is strictly monotone on the 11-bit domain
0..2047. -/
theorem convert_temperature_spec (a b : ℕ) (ha : a ≤ 2047) (hb : b ≤ 2047)
    (hab : a < b) :
    (∀ raw : ℚ, Abp.convert_temperature raw = raw / 2047 * 200 - 50) ∧
    Abp.convert_temperature 0 = -50 ∧
    Abp.convert_temperature 2047 = 150 ∧
    Abp.convert_temperature (a : ℚ) < Abp.convert_temperature (b : ℚ) := by
  refine ⟨fun raw => rfl, by norm_num [Abp.convert_temperature],
    by norm_num [Abp.convert_temperature], ?_⟩
  unfold Abp.convert_temperature
  have h : (a : ℚ) < (b : ℚ) := by exact_mod_cast hab
  linarith

/-- C7 witness: the endpoints 0 and 2047 of the 11-bit domain. -/
theorem convert_temperature_spec_witness :
    (∀ raw : ℚ, Abp.convert_temperature raw = raw / 2047 * 200 - 50) ∧
    Abp.convert_temperature 0 = -50 ∧
    Abp.convert_temperature 2047 = 150 ∧
    Abp.convert_temperature ((0 : ℕ) : ℚ) < Abp.convert_temperature ((2047 : ℕ) : ℚ) :=
  convert_temperature_spec 0 2047 (by decide) (by decide) (by decide)

/-- C8: for every frame of bytes the decoders keep their outputs inside the
declared bit widths — pressure below `2^14`, the status field below 4,
temperature below `2^11` — so `decode_pressure_and_temperature` always reaches
`some` and the panic branch of the u8-to-Status conversion is unreachable. -/
theorem decoders_stay_in_bit_widths (b0 b1 b2 b3 : ℕ)
    (hb0 : b0 < 256) (hb1 : b1 < 256) (hb2 : b2 < 256) (hb3 : b3 < 256) :
    (decode_pressure b0 b1).1 < 4 ∧
    (decode_pressure b0 b1).2 < 2 ^ 14 ∧
    ∃ out, decode_pressure_and_temperature b0 b1 b2 b3 = some out ∧
      out.pressure < 2 ^ 14 ∧ out.temperature < 2 ^ 11 := by
  have hs : b0 >>> 6 < 4 := by
    rw [Nat.shiftRight_eq_div_pow]
    omega
  have hp : ((b0 &&& 0x3F) <<< 8) ||| b1 < 2 ^ 14 := by
    apply Nat.or_lt_two_pow
    · rw [Nat.shiftLeft_eq]
      have hm : b0 &&& 0x3F ≤ 0x3F := Nat.and_le_right
      norm_num at hm ⊢
      omega
    · norm_num
      omega
  have ht : (b2 <<< 3) ||| (b3 >>> 5) < 2 ^ 11 := by
    apply Nat.or_lt_two_pow
    · rw [Nat.shiftLeft_eq]
      norm_num
      omega
    · rw [Nat.shiftRight_eq_div_pow]
      norm_num
      omega
  obtain ⟨st, hst⟩ := statusFromU8_isSome_of_lt (b0 >>> 6) hs
  exact ⟨hs, hp, ⟨st, ((b0 &&& 0x3F) <<< 8) ||| b1, (b2 <<< 3) ||| (b3 >>> 5)⟩,
    by simp [decode_pressure_and_temperature, hst], hp, ht⟩

/-- C8 witness: the all-ones frame `[0xFF, 0xFF, 0xFF, 0xFF]`. -/
theorem decoders_stay_in_bit_widths_witness :
    (decode_pressure 255 255).1 < 4 ∧
    (decode_pressure 255 255).2 < 2 ^ 14 ∧
    ∃ out, decode_pressure_and_temperature 255 255 255 255 = some out ∧
      out.pressure < 2 ^ 14 ∧ out.temperature < 2 ^ 11 :=
  decoders_stay_in_bit_widths 255 255 255 255 (by decide) (by decide) (by decide) (by decide)

/-- C9: the claim (and the spec) says `pressure_and_temperature` rejects the
call when the configuration has `has_thermometer = false`. The code does not:
the guard is commented out (lib.rs:230), so on the thermometer-less psi/gauge
configuration a successful all-zero 4-byte read still returns the converted
value `Ok(1638)`. -/
theorem pressure_and_temperature_ignores_thermometer_flag :
    cfgPsiGauge.has_thermometer = false ∧
    Abp.pressure_and_temperature cfgPsiGauge 0 0 0 0 = some 1638 := by
  refine ⟨rfl, ?_⟩
  have h : decode_pressure_and_temperature 0 0 0 0 = some ⟨Status.Valid, 0, 0⟩ := by
    decide
  norm_num [Abp.pressure_and_temperature, h, Abp.convert_pressure, cfgPsiGauge, u16_sub]

/-- C10: after any successful 4-byte bus read, `pressure_and_temperature`
returns `Ok(convert_pressure(pressure))` whatever the decoded status is —
Valid, Command, Stale or Diagnostic — applying no status gating at all. -/
theorem pressure_and_temperature_applies_no_status_gating (cfg : Configuration)
    (b0 b1 b2 b3 : ℕ)
    (hb0 : b0 < 256) (hb1 : b1 < 256) (hb2 : b2 < 256) (hb3 : b3 < 256) :
    Abp.pressure_and_temperature cfg b0 b1 b2 b3 =
      some (Abp.convert_pressure cfg ((((b0 &&& 0x3F) <<< 8) ||| b1 : ℕ) : ℚ)) := by
  have hs : b0 >>> 6 < 4 := by
    rw [Nat.shiftRight_eq_div_pow]
    omega
  obtain ⟨st, hst⟩ := statusFromU8_isSome_of_lt (b0 >>> 6) hs
  simp [Abp.pressure_and_temperature, decode_pressure_and_temperature, hst]

/-- C10 witness: a Diagnostic-status frame (`b0 = 0xC0`) on the psi/gauge
configuration still yields the converted pressure. -/
theorem pressure_and_temperature_applies_no_status_gating_witness :
    Abp.pressure_and_temperature cfgPsiGauge 192 0 0 0 =
      some (Abp.convert_pressure cfgPsiGauge ((((192 &&& 0x3F) <<< 8) ||| 0 : ℕ) : ℚ)) :=
  pressure_and_temperature_applies_no_status_gating cfgPsiGauge 192 0 0 0
    (by decide) (by decide) (by decide) (by decide)
